import Mathlib

/-!
# Verification of the hisab-kitab invoice extraction scripts

Shallow embedding of the parsing logic of `src/pdf/parse_zepto_invoice.py`,
`src/pdf/parse_swiggy_invoice.py`, `src/pdf/parse_district_invoice.py` and
`src/pdf/parse_blinkit_invoice.py`, together with theorems settling the
frozen claims about the natural-language specification.

Modelling conventions:
* Python strings are Lean `String`s; all character-level work goes through
  `String.data : List Char` so that every definition kernel-evaluates.
* Money/percent values parsed from text are represented as `ℚ`, constructed
  only through `mkRat` (exactly the decimal values the Python `float()` calls
  produce; every numeric literal in scope is exactly representable, so `ℚ`
  equality coincides with Python float equality).
* Python functions that can raise are modelled in `Except PyErr`; a pure
  `Option` result models a function that has been proved (or is modelled)
  total.
* The fixed regular expressions of the scripts are modelled at whitespace-token
  granularity: after the scripts' own `\s+`-normalisation each numeric field of
  the row grammars must occupy a whole whitespace-delimited token (the `\s+`
  separators and `\b`/`%`/`$` anchors in the patterns force this), and the
  non-greedy free-text groups are token runs tried shortest-first from the
  leftmost start, mirroring the regex engine's backtracking order.
* The geometric part of the scripts (pdfplumber page/word objects, cropping)
  is the external provider; the embedding starts from what that provider
  returns: the flattened text lines of a document and the raw tables
  (`List (List (Option String))`) that `extract_tables` yields.
-/

/-! ## Python-style character and string primitives -/

/-- Python `\s` (the whitespace class used by `str.strip` and `re`):
space, tab, newline, carriage return, vertical tab, form feed. -/
def isPyWs (c : Char) : Bool :=
  c = ' ' || c = '\t' || c = '\n' || c = '\r' || c = Char.ofNat 11 || c = Char.ofNat 12

/-- Python regex `\w`: letters, digits, underscore (ASCII fragment). -/
def isWordCh (c : Char) : Bool :=
  c.isAlphanum || c = '_'

/-- `str.strip()` on the character list. -/
def pyStripL (l : List Char) : List Char :=
  ((l.dropWhile isPyWs).reverse.dropWhile isPyWs).reverse

/-- Python `s.strip()`. -/
def pyStrip (s : String) : String := ⟨pyStripL s.data⟩

/-- Character set used by the scripts' `name.strip(' -')`. -/
def isDashSp (c : Char) : Bool := c = ' ' || c = '-'

/-- Python `s.strip(' -')`. -/
def stripDashSp (s : String) : String :=
  ⟨((s.data.dropWhile isDashSp).reverse.dropWhile isDashSp).reverse⟩

/-- Worker for `re.sub(r'\s+', ' ', s)`: the flag records whether the previous
character was whitespace (so a run collapses to a single space). -/
def collapseGo : Bool → List Char → List Char
  | _, [] => []
  | inWs, c :: rest =>
    if isPyWs c then
      if inWs then collapseGo true rest else ' ' :: collapseGo true rest
    else c :: collapseGo false rest

/-- Python `re.sub(r'\s+', ' ', s)`. -/
def collapseWs (s : String) : String := ⟨collapseGo false s.data⟩

/-- ASCII lower-casing, matching Python `str.lower()` on the scripts' inputs. -/
def toLowerS (s : String) : String := ⟨s.data.map Char.toLower⟩

/-- Is `n` a prefix of `h`? -/
def startsWithL : List Char → List Char → Bool
  | [], _ => true
  | _ :: _, [] => false
  | a :: as, b :: bs => a = b && startsWithL as bs

/-- Substring containment: Python `needle in hay`. -/
def containsSubL (n : List Char) : List Char → Bool
  | [] => startsWithL n []
  | c :: rest => startsWithL n (c :: rest) || containsSubL n rest

/-- Python `needle in hay` on strings. -/
def pyIn (needle hay : String) : Bool := containsSubL needle.data hay.data

/-- Python `s.startswith(p)`. -/
def startsWithS (p s : String) : Bool := startsWithL p.data s.data

/-- Python `s.endswith(p)`. -/
def endsWithS (p s : String) : Bool := startsWithL p.data.reverse s.data.reverse

/-- Worker for whitespace tokenisation (`cur` is the reversed current token). -/
def toksGo (cur : List Char) : List Char → List String
  | [] => if cur.isEmpty then [] else [⟨cur.reverse⟩]
  | c :: rest =>
    if isPyWs c then
      if cur.isEmpty then toksGo [] rest else ⟨cur.reverse⟩ :: toksGo [] rest
    else toksGo (c :: cur) rest

/-- The whitespace-delimited tokens of a string (what the `\s+`-separated
regex grammars of the scripts operate on). -/
def pyToks (s : String) : List String := toksGo [] s.data

/-- Join tokens with single spaces (inverse of tokenisation for the
whitespace-normalised strings the scripts build). -/
def joinSp : List String → String
  | [] => ""
  | [x] => x
  | x :: y :: rest => x ++ " " ++ joinSp (y :: rest)

/-- Nonempty and all decimal digits: Python `s.isdigit()` (ASCII fragment). -/
def isDigitStr (s : String) : Bool :=
  !s.data.isEmpty && s.data.all Char.isDigit

/-- Numeric value of a digit list. -/
def digitsVal (l : List Char) : Nat :=
  l.foldl (fun a c => a * 10 + (c.toNat - '0'.toNat)) 0

/-- Value of an all-digit string (used after `isdigit`/regex guards). -/
def strToInt (s : String) : Int := Int.ofNat (digitsVal s.data)

/-- Python `s.replace(',', '')`. -/
def removeCommas (s : String) : String := ⟨s.data.filter (fun c => c ≠ ',')⟩

/-! ## Python numeric conversions

`pyInt`/`pyFloat` model the builtin `int(...)`/`float(...)` applied to a
string: `none` is Python raising `ValueError`.  The float model covers the
plain decimal forms (`123`, `12.5`, `.5`, signs); the scripts never feed
exponent/`inf`/`nan` shapes to these calls. -/

/-- Digits-only body check for `int()`. -/
def pyIntBody (l : List Char) : Option Int :=
  if !l.isEmpty && l.all Char.isDigit then some (Int.ofNat (digitsVal l)) else none

/-- Python `int(s)` on a string. -/
def pyInt (s : String) : Option Int :=
  match pyStripL s.data with
  | '+' :: rest => pyIntBody rest
  | '-' :: rest => (pyIntBody rest).map Neg.neg
  | rest => pyIntBody rest

/-- Unsigned decimal body for `float()`: `digits`, `digits.digits*` or `.digits+`. -/
def pyFloatBody (l : List Char) : Option ℚ :=
  let ds := l.takeWhile Char.isDigit
  match l.dropWhile Char.isDigit with
  | [] => if ds.isEmpty then none else some (mkRat (Int.ofNat (digitsVal ds)) 1)
  | '.' :: fs =>
    if fs.all Char.isDigit && !(ds.isEmpty && fs.isEmpty) then
      some (mkRat (Int.ofNat (digitsVal ds * 10 ^ fs.length + digitsVal fs)) (10 ^ fs.length))
    else none
  | _ => none

/-- Python `float(s)` on a string. -/
def pyFloat (s : String) : Option ℚ :=
  match pyStripL s.data with
  | '+' :: rest => pyFloatBody rest
  | '-' :: rest => (pyFloatBody rest).map Neg.neg
  | rest => pyFloatBody rest

/-- Truncation toward zero: Python `int(...)` applied to a float. -/
def ratTrunc (q : ℚ) : Int := Int.tdiv q.num (Int.ofNat q.den)

/-- `parse_zepto_invoice.fnum`: `None` passes through, commas are removed
after stripping, and a failing `float()` is caught and becomes `None`. -/
def fnum : Option String → Option ℚ
  | none => none
  | some s => pyFloat (removeCommas (pyStrip s))

/-- `parse_swiggy_invoice.norm_money`: commas removed, then stripped, then
`float()` with the exception caught. -/
def normMoney : Option String → Option ℚ
  | none => none
  | some s => pyFloat (pyStrip (removeCommas s))

/-! ## Exception-aware views

`PyErr` carries the two exception kinds the claims touch.  The `Except`
variants thread exactly the `try`/`except` structure of the source. -/

/-- The Python exceptions relevant to the claims. -/
inductive PyErr where
  | valueError
  | indexError
deriving DecidableEq, Repr

/-- Decidable equality on `Except` results (for evaluating the
exception-aware definitions on concrete inputs). -/
instance exceptDecEq {ε α : Type} [DecidableEq ε] [DecidableEq α] :
    DecidableEq (Except ε α) := fun x y =>
  match x, y with
  | .ok a, .ok b =>
    if h : a = b then isTrue (by rw [h]) else isFalse (fun hc => h (Except.ok.inj hc))
  | .error a, .error b =>
    if h : a = b then isTrue (by rw [h]) else isFalse (fun hc => h (Except.error.inj hc))
  | .ok _, .error _ => isFalse (fun hc => Except.noConfusion hc)
  | .error _, .ok _ => isFalse (fun hc => Except.noConfusion hc)

/-- `float(s)` as a raising operation. -/
def floatE (s : String) : Except PyErr ℚ :=
  match pyFloat s with
  | some v => .ok v
  | none => .error .valueError

/-- `int(s)` as a raising operation. -/
def intE (s : String) : Except PyErr Int :=
  match pyInt s with
  | some v => .ok v
  | none => .error .valueError

/-- `fnum` with its internal `try: return float(s) / except: return None`
made explicit: the only raising call is the `float`, and it is caught. -/
def fnumE : Option String → Except PyErr (Option ℚ)
  | none => .ok none
  | some s =>
    match floatE (removeCommas (pyStrip s)) with
    | .ok v => .ok (some v)
    | .error _ => .ok none

/-- The Zepto quantity conversion `int(float(q))` as the pure caught value
(`parse_zepto_invoice.py` wraps it in `try/except` yielding `None`). -/
def qtyTry (q : String) : Option Int := (pyFloat q).map ratTrunc

/-- The same conversion with the raising `float` and the `except` explicit. -/
def qtyTryE (q : String) : Except PyErr (Option Int) :=
  match floatE q with
  | .ok v => .ok (some (ratTrunc v))
  | .error _ => .ok none

/-! ## Token shapes of the regex field kinds

Each predicate states that a whole whitespace-delimited token matches the
corresponding parenthesised group (plus its required trailing `%` where the
pattern demands one). -/

/-- `\d{6,8}` as a whole token (the HSN group). -/
def isHsnTok (s : String) : Bool :=
  isDigitStr s && 6 ≤ s.data.length && s.data.length ≤ 8

/-- `\d+\.\d{2}` as a whole token. -/
def isMoney2 (s : String) : Bool :=
  let ds := s.data.takeWhile Char.isDigit
  !ds.isEmpty &&
    (match s.data.dropWhile Char.isDigit with
     | ['.', a, b] => a.isDigit && b.isDigit
     | _ => false)

/-- `\d+(?:\.\d{1,2})?` as a whole token. -/
def isMoney012 (s : String) : Bool :=
  let ds := s.data.takeWhile Char.isDigit
  !ds.isEmpty &&
    (match s.data.dropWhile Char.isDigit with
     | [] => true
     | ['.', a] => a.isDigit
     | ['.', a, b] => a.isDigit && b.isDigit
     | _ => false)

/-- `\d+\.\d+` on a character list. -/
def isDecStrictL (l : List Char) : Bool :=
  let ds := l.takeWhile Char.isDigit
  match l.dropWhile Char.isDigit with
  | '.' :: fs => !ds.isEmpty && !fs.isEmpty && fs.all Char.isDigit
  | _ => false

/-- `\d+(?:\.\d+)?` on a character list. -/
def isDecOptL (l : List Char) : Bool :=
  let ds := l.takeWhile Char.isDigit
  match l.dropWhile Char.isDigit with
  | [] => !ds.isEmpty
  | '.' :: fs => !ds.isEmpty && !fs.isEmpty && fs.all Char.isDigit
  | _ => false

/-- `(\d+\.\d+)%` as a whole token. -/
def isPctStrict (s : String) : Bool :=
  match s.data.reverse with
  | '%' :: r => isDecStrictL r.reverse
  | _ => false

/-- `(\d+(?:\.\d+)?)%` as a whole token. -/
def isPctOpt (s : String) : Bool :=
  match s.data.reverse with
  | '%' :: r => isDecOptL r.reverse
  | _ => false

/-- `(\d+(?:\.\d+)?)(?:%)?` as a whole token (percent sign optional). -/
def isPctMaybe (s : String) : Bool :=
  match s.data.reverse with
  | '%' :: r => isDecOptL r.reverse
  | _ => isDecOptL s.data

/-- The captured value of a percent token: the token without its `%`. -/
def pctVal (s : String) : String :=
  match s.data.reverse with
  | '%' :: r => ⟨r.reverse⟩
  | _ => s

/-- `[0-9][0-9,]*\.[0-9]{2,3}` as a whole token (the Swiggy money shape). -/
def isMoney3 (s : String) : Bool :=
  match s.data with
  | [] => false
  | c :: rest =>
    c.isDigit &&
      (match rest.dropWhile (fun d => d.isDigit || d = ',') with
       | '.' :: fs => (fs.length = 2 || fs.length = 3) && fs.all Char.isDigit
       | _ => false)

/-! ## Character-level rewrites used by the Zepto text-table path -/

/-- Worker for `re.sub(r'(?<!\d)\.(\d)\b', r'0.\1', s)` ("orphan decimal"
repair): a dot not preceded by a digit, followed by one digit that sits at a
word boundary, gains a leading zero.  Scanning resumes after the replaced
region, as `re.sub` does. -/
def orphanGo (prev : Option Char) : List Char → List Char
  | [] => []
  | [c] => [c]
  | c :: d :: rest2 =>
    if c = '.' && (match prev with | some p => !p.isDigit | none => true) && d.isDigit &&
        (match rest2 with | [] => true | e :: _ => !isWordCh e) then
      '0' :: '.' :: d :: orphanGo (some d) rest2
    else c :: orphanGo (some c) (d :: rest2)

/-- `re.sub(r'(?<!\d)\.(\d)\b', r'0.\1', s)`. -/
def orphanFix (s : String) : String := ⟨orphanGo none s.data⟩

/-- Worker for `re.sub(r'(?<=\d)\s+(?=\d)', '', s)`: delete each whitespace
run that sits between two digits.  Fuel is the list length (each step
consumes at least one character). -/
def ddsF : Nat → Bool → List Char → List Char
  | 0, _, l => l
  | fuel + 1, prevDigit, l =>
    match l with
    | [] => []
    | c :: rest =>
      if prevDigit && isPyWs c then
        match l.dropWhile isPyWs with
        | d :: after => if d.isDigit then ddsF fuel true (d :: after)
                        else c :: ddsF fuel c.isDigit rest
        | [] => c :: ddsF fuel c.isDigit rest
      else c :: ddsF fuel c.isDigit rest

/-- `re.sub(r'(?<=\d)\s+(?=\d)', '', s)` (digit-split repair inside a cell). -/
def delDigitSp (s : String) : String := ⟨ddsF s.data.length false s.data⟩

/-- Worker for `re.search(r'\b\d{6,8}\b', s)`: looks for a maximal digit run
of length 6–8 whose neighbours are word boundaries. -/
def hsnRunF : Nat → Bool → List Char → Bool
  | 0, _, _ => false
  | fuel + 1, prevWord, l =>
    match l with
    | [] => false
    | c :: rest =>
      if c.isDigit && !prevWord then
        let run := l.takeWhile Char.isDigit
        let after := l.dropWhile Char.isDigit
        if (6 ≤ run.length && run.length ≤ 8) &&
            (match after with | [] => true | e :: _ => !isWordCh e) then true
        else hsnRunF fuel true after
      else hsnRunF fuel (isWordCh c) rest

/-- `bool(re.search(r'\b\d{6,8}\b', s))`. -/
def hasHsnRun (s : String) : Bool := hsnRunF (s.data.length + 1) false s.data

/-- Worker for `s.split('\n')` (keeps empty segments, as Python does). -/
def splitNLGo (cur : List Char) : List Char → List String
  | [] => [⟨cur.reverse⟩]
  | c :: rest =>
    if c = '\n' then ⟨cur.reverse⟩ :: splitNLGo [] rest
    else splitNLGo (c :: cur) rest

/-- Python `s.split('\n')`. -/
def splitNL (s : String) : List String := splitNLGo [] s.data

/-- `s.replace('\n', ' ')`. -/
def replaceNLSp (s : String) : String :=
  ⟨s.data.map (fun c => if c = '\n' then ' ' else c)⟩

/-! ## Zepto data model -/

/-- One Zepto line item (the dict built by `parse_zepto_invoice.py`). -/
structure ZItem where
  sr : Option Int
  name : String
  hsn : Option String
  qty : Option Int
  rate : Option ℚ
  discount_pct : Option ℚ
  taxable : Option ℚ
  cgst_pct : Option ℚ
  sgst_pct : Option ℚ
  cgst_amt : Option ℚ
  sgst_amt : Option ℚ
  cess_pct : Option ℚ
  cess_amt : Option ℚ
  total : Option ℚ
deriving DecidableEq, Repr

/-- A raw table row as returned by `pdfplumber.extract_tables`: cells may be
missing (`None`). -/
def Row : Type := List (Option String)

/-- A raw table: header row followed by data rows. -/
def RawTable : Type := List (List (Option String))

/-- `row[i]` with `None` padding.  (pdfplumber emits uniform-width rows; on a
shorter row Python itself would raise `IndexError` at the unguarded
`row[idx_desc]`/`row[idx_total]` subscripts.) -/
def cellAt (row : List (Option String)) (i : Nat) : Option String :=
  (row.getD i none).bind some

/-! ## The Zepto line grammars

Three fixed patterns of `parse_zepto_invoice.py`:
* `item_re` (Mode 1, lines 445–459): strict single-line grammar, no cess
  percentage group;
* `row_pat` (`parse_item_row_text` / `parse_item_row_text_all`): same field
  order with laxer money shapes and an optional-`%` cess percentage;
* the Mode 2 pattern (lines 624–640): order-flexible variant with a second
  free-text run between the serial number and the numeric tail.
-/

/-- Groups of an `item_re` match. -/
structure M1 where
  sr : String
  name : String
  hsn : String
  qty : String
  rate : String
  disc : String
  taxable : String
  cgst_pct : String
  sgst_pct : String
  cgst_amt : String
  sgst_amt : String
  cess_amt : String
  total : String
deriving DecidableEq, Repr

/-- Try an `item_re` match with the serial token at index `s` and a name run
of `n` tokens; the 11 numeric-tail tokens must follow immediately. -/
def m1At (toks : List String) (s n : Nat) : Option M1 :=
  let srT := toks.getD s ""
  if !isDigitStr srT then none
  else
    let nameToks := (toks.drop (s + 1)).take n
    if nameToks.length ≠ n then none
    else
      match toks.drop (s + 1 + n) with
      | hsn :: qty :: rate :: disc :: txb :: cgp :: sgp :: cga :: sga :: csa :: tot :: _ =>
        if isHsnTok hsn && isDigitStr qty && isMoney2 rate && isPctStrict disc &&
            isMoney2 txb && isPctStrict cgp && isPctStrict sgp && isMoney2 cga &&
            isMoney2 sga && isMoney2 csa && isMoney2 tot then
          some ⟨srT, joinSp nameToks, hsn, qty, rate, pctVal disc, txb,
                pctVal cgp, pctVal sgp, cga, sga, csa, tot⟩
        else none
      | _ => none

/-- `item_re.search(line)`: leftmost start, then shortest name run (the
regex engine's backtracking order for the non-greedy name group). -/
def itemReMatch (line : String) : Option M1 :=
  let toks := pyToks line
  (List.range toks.length).findSome? fun s =>
    (List.range toks.length).findSome? fun n => m1At toks s (n + 1)

/-- Groups of a `row_pat` match. -/
structure MR where
  sr : String
  name : String
  hsn : String
  qty : String
  rate : String
  disc : String
  taxable : String
  cgst_pct : String
  sgst_pct : String
  cgst_amt : String
  sgst_amt : String
  cess_pct : String
  cess_amt : String
  total : String
deriving DecidableEq, Repr

/-- Try a `row_pat` match with serial at `s` and a name run of `n` tokens;
12 numeric-tail tokens must follow. -/
def mrAt (toks : List String) (s n : Nat) : Option MR :=
  let srT := toks.getD s ""
  if !isDigitStr srT then none
  else
    let nameToks := (toks.drop (s + 1)).take n
    if nameToks.length ≠ n then none
    else
      match toks.drop (s + 1 + n) with
      | hsn :: qty :: rate :: disc :: txb :: cgp :: sgp :: cga :: sga :: csp :: csa :: tot :: _ =>
        if isHsnTok hsn && isDigitStr qty && isMoney012 rate && isPctOpt disc &&
            isMoney012 txb && isPctOpt cgp && isPctOpt sgp && isMoney012 cga &&
            isMoney012 sga && isPctMaybe csp && isMoney012 csa && isMoney012 tot then
          some ⟨srT, joinSp nameToks, hsn, qty, rate, pctVal disc, txb,
                pctVal cgp, pctVal sgp, cga, sga, pctVal csp, csa, tot⟩
        else none
      | _ => none

/-- `re.search(row_pat, text)` at token level, also returning the index one
past the matched region (for `finditer`). -/
def rowPatFind (toks : List String) : Option (MR × Nat) :=
  (List.range toks.length).findSome? fun s =>
    (List.range toks.length).findSome? fun n =>
      (mrAt toks s (n + 1)).map (fun m => (m, s + 1 + (n + 1) + 12))

/-- `re.finditer(row_pat, text)`: repeated leftmost search, resuming after
the end of each match.  Fuel bounds the number of matches. -/
def rowPatAllGo : Nat → List String → List MR
  | 0, _ => []
  | fuel + 1, toks =>
    match rowPatFind toks with
    | none => []
    | some (m, e) => m :: rowPatAllGo fuel (toks.drop e)

/-- All `row_pat` matches of a token list. -/
def rowPatAll (toks : List String) : List MR := rowPatAllGo (toks.length + 1) toks

/-! ## Name cleanup (the iterated short-fragment merges) -/

/-- `re.sub(r'\b([A-Za-z]{1,2})\s+([a-z]{2,})\b', r'\1\2', ·)` at token level. -/
def mergeCond1 (a b : String) : Bool :=
  !a.data.isEmpty && a.data.length ≤ 2 && a.data.all Char.isAlpha &&
    2 ≤ b.data.length && b.data.all (fun c => c.isLower && c.isAlpha)

/-- `re.sub(r'\b([A-Za-z]{1,3})\s+([a-z]{1,3})\b', r'\1\2', ·)` at token level. -/
def mergeCond2 (a b : String) : Bool :=
  !a.data.isEmpty && a.data.length ≤ 3 && a.data.all Char.isAlpha &&
    !b.data.isEmpty && b.data.length ≤ 3 && b.data.all (fun c => c.isLower && c.isAlpha)

/-- `re.sub(r'\b([a-z]{2,4})\s+([a-z]{2,4})\b', r'\1\2', ·)` at token level. -/
def mergeCond3 (a b : String) : Bool :=
  2 ≤ a.data.length && a.data.length ≤ 4 && a.data.all (fun c => c.isLower && c.isAlpha) &&
    2 ≤ b.data.length && b.data.length ≤ 4 && b.data.all (fun c => c.isLower && c.isAlpha)

/-- One left-to-right, non-overlapping substitution pass: a merged pair is
not rescanned within the same pass (as `re.sub` resumes after a
replacement). -/
def mergePass (p : String → String → Bool) : List String → List String
  | [] => []
  | [a] => [a]
  | a :: b :: rest =>
    if p a b then (a ++ b) :: mergePass p rest
    else a :: mergePass p (b :: rest)

/-- The three substitutions of one cleanup iteration, in source order. -/
def cleanPasses (ts : List String) : List String :=
  mergePass mergeCond3 (mergePass mergeCond2 (mergePass mergeCond1 ts))

/-- `for _ in range(5)` with the fixed-point break. -/
def cleanLoop : Nat → List String → List String
  | 0, ts => ts
  | n + 1, ts =>
    let ts2 := cleanPasses ts
    if ts2 = ts then ts else cleanLoop n ts2

/-- `clean_name` of `parse_item_row_text` (duplicated inline in
`parse_item_row_text_all`): collapse whitespace, strip `' -'`, then the
iterated merges. -/
def cleanName (name : String) : String :=
  joinSp (cleanLoop 5 (pyToks (stripDashSp (collapseWs name))))

/-! ## The two text-row parsers -/

/-- Build the item dict of `parse_item_row_text_all` from a match (name
cleanup, no repair rules). -/
def mrToItemAll (m : MR) : ZItem :=
  { sr := some (strToInt m.sr)
    name := cleanName m.name
    hsn := some m.hsn
    qty := (pyFloat m.qty).map ratTrunc
    rate := fnum (some m.rate)
    discount_pct := fnum (some m.disc)
    taxable := fnum (some m.taxable)
    cgst_pct := fnum (some m.cgst_pct)
    sgst_pct := fnum (some m.sgst_pct)
    cgst_amt := fnum (some m.cgst_amt)
    sgst_amt := fnum (some m.sgst_amt)
    cess_pct := fnum (some m.cess_pct)
    cess_amt := fnum (some m.cess_amt)
    total := fnum (some m.total) }

/-- `parse_item_row_text_all(row_text)`: whitespace-normalise, repair orphan
decimals, then every `row_pat` match becomes an item. -/
def parse_item_row_text_all (row_text : String) : List ZItem :=
  let rt := collapseWs (pyStrip row_text)
  if rt = "" then []
  else (rowPatAll (pyToks (orphanFix rt))).map mrToItemAll

/-- Trigger of the total/taxable repair (lines 287–289): `total` present and
below 5, `taxable` present, and both tax amounts `None`-or-zero. -/
def totalRepairCond (it : ZItem) : Bool :=
  match it.total, it.taxable with
  | some t, some _ => t < (5 : ℚ) && (it.cgst_amt.getD 0 = (0 : ℚ)) && (it.sgst_amt.getD 0 = (0 : ℚ))
  | _, _ => false

/-- `parse_item_row_text(row_text)`: single `row_pat` search, name cleanup,
then the total/taxable repair and the Kinnaur brand-name repair.  (This
helper is defined in the script but no extraction path calls it; both table
paths call `parse_item_row_text_all`.) -/
def parse_item_row_text (row_text : String) : Option ZItem :=
  let rt := collapseWs (pyStrip row_text)
  if rt = "" then none
  else
    match rowPatFind (pyToks (orphanFix rt)) with
    | none => none
    | some (m, _) =>
      let item := mrToItemAll m
      let item := if totalRepairCond item then { item with total := item.taxable } else item
      let item :=
        if startsWithS "kinnaur" (toLowerS item.name) then
          { item with name := "Apple " ++ item.name ++ " pcs" }
        else item
      some item

/-! ## Grid-strategy table extraction (`table_extract_items`, lines 77–222) -/

/-- Header-cell normalisation of the grid path:
`str(c or '').strip().lower().replace('\n', ' ')`. -/
def gridHeaderCell (c : Option String) : String :=
  replaceNLSp (toLowerS (pyStrip (c.getD "")))

/-- First index whose cell satisfies `p` (Python
`next((i for i, c in enumerate(header) if p c), None)`). -/
def firstIdxGo (p : String → Bool) : List String → Nat → Option Nat
  | [], _ => none
  | c :: rest, i => if p c then some i else firstIdxGo p rest (i + 1)

/-- `next((i for i, c in ...), None)`. -/
def firstIdx (p : String → Bool) (l : List String) : Option Nat := firstIdxGo p l 0

/-- Worker for the Zepto total-column scan: the loop keeps overwriting
`idx_total`, so the last matching index survives. -/
def zeptoIdxTotalGo : Nat → Option Nat → List String → Option Nat
  | _, acc, [] => acc
  | i, acc, c :: rest =>
    zeptoIdxTotalGo (i + 1) (if pyIn "total" c then some i else acc) rest

/-- Lines 122–125 of `parse_zepto_invoice.py`: the index of the *last*
header cell containing `"total"`. -/
def zeptoIdxTotal (header : List String) : Option Nat :=
  zeptoIdxTotalGo 0 none header

/-- `splitcell(v)` on a string: split on newlines, keep segments with
nonempty strip, whitespace-normalise each. -/
def splitcellS (s : String) : List String :=
  ((splitNL s).filter (fun x => pyStrip x ≠ "")).map (fun x => collapseWs (pyStrip x))

/-- `splitcell(v)` on an optional cell (`str(v or '')`). -/
def splitcell (v : Option String) : List String := splitcellS (v.getD "")

/-- One iteration of the merged-multi-row loop (lines 154–184): the `i`-th
sub-item of a row whose cells carry newline-joined sub-values.  `none` is
the `continue` for a missing name or unparseable total. -/
def buildSub (srs descs hsns qtys totals : List String) (i : Nat) : Option ZItem :=
  let name := if i < descs.length then descs.getD i "" else ""
  if name = "" then none
  else
    match (if i < totals.length then fnum (some (totals.getD i "")) else none) with
    | none => none
    | some tv =>
      some
        { sr := if i < srs.length ∧ isDigitStr (srs.getD i "") then
                  some (strToInt (srs.getD i "")) else none
          name := name
          hsn := if i < hsns.length then some (hsns.getD i "") else none
          qty := if i < qtys.length then qtyTry (qtys.getD i "") else none
          rate := none, discount_pct := none, taxable := none
          cgst_pct := none, sgst_pct := none, cgst_amt := none, sgst_amt := none
          cess_pct := none, cess_amt := none
          total := some tv }

/-- The full merged-multi-row normalisation: `n = max(...)` iterations of
`buildSub`. -/
def multiSub (srs descs hsns qtys totals : List String) : List ZItem :=
  let n := max (max (max (max descs.length totals.length) srs.length) hsns.length) qtys.length
  (List.range n).filterMap (buildSub srs descs hsns qtys totals)

/-- One data row of the grid path (lines 130–220). -/
def gridRowItems (idx_desc idx_total : Nat) (idx_qty idx_hsn : Option Nat)
    (row : List (Option String)) : List ZItem :=
  if row.isEmpty then []
  else
    let first_raw := pyStrip ((row.headD none).getD "")
    let first := toLowerS first_raw
    if first = "item total" || first = "total" || first = "invoice value" then []
    else
      let desc_raw := pyStrip ((cellAt row idx_desc).getD "")
      if desc_raw = "" then []
      else if pyIn "\n" first_raw || pyIn "\n" desc_raw then
        let srs := splitcellS first_raw
        let descs := splitcellS desc_raw
        let hsns := match idx_hsn with
          | some ih => if ih < row.length then splitcell (cellAt row ih) else []
          | none => []
        let qtys := match idx_qty with
          | some iq => if iq < row.length then splitcell (cellAt row iq) else []
          | none => []
        let totals := if idx_total < row.length then splitcell (cellAt row idx_total) else []
        multiSub srs descs hsns qtys totals
      else
        match fnum (some (pyStrip ((cellAt row idx_total).getD ""))) with
        | none => []
        | some tv =>
          let qty := match idx_qty with
            | some iq =>
              if iq < row.length then
                let q := pyStrip ((cellAt row iq).getD "")
                if q = "" then none else qtyTry q
              else none
            | none => none
          let hsn := match idx_hsn with
            | some ih =>
              if ih < row.length then
                let h := pyStrip ((cellAt row ih).getD "")
                if h = "" then none else some h
              else none
            | none => none
          [{ sr := if isDigitStr first_raw then some (strToInt first_raw) else none
             name := collapseWs desc_raw
             hsn := hsn, qty := qty
             rate := none, discount_pct := none, taxable := none
             cgst_pct := none, sgst_pct := none, cgst_amt := none, sgst_amt := none
             cess_pct := none, cess_amt := none
             total := some tv }]

/-- Process the first grid table of a page: header keyword lookup, then the
row loop.  A missing description or total column skips the page. -/
def gridTableItems (tb : RawTable) : List ZItem :=
  match tb with
  | [] => []
  | hdr :: rows =>
    let header := hdr.map gridHeaderCell
    match firstIdx (fun c => pyIn "item" c && pyIn "description" c) header,
        zeptoIdxTotal header with
    | some idx_desc, some idx_total =>
      let idx_qty := firstIdx (fun c => pyIn "qty" c) header
      let idx_hsn := firstIdx (fun c => pyIn "hsn" c) header
      (rows.map (gridRowItems idx_desc idx_total idx_qty idx_hsn)).flatten
    | _, _ => []

/-! ## Text-strategy table extraction (`table_extract_items_text`, lines 353–426) -/

/-- Lines 399–412: the in-place digit-split repair over adjacent cells.
When an all-digit cell of length 6–7 is followed by an all-digit cell of
length 1–3 holding at least the `8 - len` missing digits, the needed digits
move from the front of the second cell into the first; an emptied second
cell is removed and scanning resumes at the repaired cell, otherwise the
scan advances (the source's `i += 1`). -/
def digitPairGuard (a b : String) : Bool :=
  isDigitStr a && 6 ≤ a.data.length && a.data.length < 8 &&
    isDigitStr b && 1 ≤ b.data.length && b.data.length ≤ 3 &&
    8 - a.data.length ≤ b.data.length

/-- The repaired first cell: `cells[i] = a + b[:need]`. -/
def repairFst (a b : String) : String := ⟨a.data ++ b.data.take (8 - a.data.length)⟩

/-- The shortened second cell: `cells[i + 1] = b[need:]`. -/
def repairSnd (a b : String) : String := ⟨b.data.drop (8 - a.data.length)⟩

def digitRepairGo : Nat → List String → List String
  | _, [] => []
  | _, [a] => [a]
  | fuel + 1, a :: b :: rest =>
    if digitPairGuard a b then
      if repairSnd a b = "" then digitRepairGo fuel (repairFst a b :: rest)
      else repairFst a b :: digitRepairGo fuel (repairSnd a b :: rest)
    else a :: digitRepairGo fuel (b :: rest)
  | 0, l => l

/-- The repair itself.  Every step of the loop shortens the remaining cell
list, so running `digitRepairGo` with the list length as fuel is exact: the
fuel never runs out before the two-cell window does. -/
def digitRepair (cells : List String) : List String :=
  digitRepairGo cells.length cells

/-- Cell cleanup of the text path (lines 391–398): collapse and strip, glue
digit runs split inside the cell, fix orphan decimals, drop empties. -/
def textRowCells (row : List (Option String)) : List String :=
  (row.map (fun c => orphanFix (delDigitSp (collapseWs (pyStrip (c.getD "")))))).filter
    (fun s => s ≠ "")

/-- The data-row loop of the text path (lines 390–425), including the
`break` on a totals row that abandons the remaining rows. -/
def textRowsGo : List (List (Option String)) → List ZItem
  | [] => []
  | row :: rest =>
    let cells := digitRepair (textRowCells row)
    let row_text := joinSp cells
    if row_text = "" then textRowsGo rest
    else if pyIn "item total" (toLowerS row_text) || pyIn "invoice value" (toLowerS row_text) then []
    else if !hasHsnRun row_text then textRowsGo rest
    else ((parse_item_row_text_all row_text).filter (fun p => p.name ≠ "")) ++ textRowsGo rest

/-- Process the first text-strategy table of a page (lines 378–425): the
header row is itself reparsed when it contains an HSN-like run (the
row-overlap rendering bug), then the data rows. -/
def textTableItems (tb : RawTable) : List ZItem :=
  match tb with
  | [] => []
  | hdr :: rows =>
    let header_cells := hdr.map (fun c => collapseWs (pyStrip (c.getD "")))
    let header_text := joinSp (header_cells.filter (fun c => c ≠ ""))
    let headPart :=
      if header_text ≠ "" ∧ hasHsnRun header_text then
        (parse_item_row_text_all header_text).filter (fun p => p.name ≠ "")
      else []
    headPart ++ textRowsGo rows

/-! ## Mode 1: the flattened-line path with context stitching (lines 461–609) -/

/-- `\d+(?:\.\d+)?%?` as a full match. -/
def fullNumPct (s : String) : Bool :=
  match s.data.reverse with
  | '%' :: r => isDecOptL r.reverse
  | _ => isDecOptL s.data

/-- `[\+\-]?\s*\d+\.\d{2}` as a full match. -/
def fullSignedMoney (s : String) : Bool :=
  match s.data with
  | '+' :: r => isMoney2 ⟨r.dropWhile isPyWs⟩
  | '-' :: r => isMoney2 ⟨r.dropWhile isPyWs⟩
  | l => isMoney2 ⟨l⟩

/-- `\+\s*\d+\.\d{2}` as a full match. -/
def fullPlusMoney (s : String) : Bool :=
  match s.data with
  | '+' :: r => isMoney2 ⟨r.dropWhile isPyWs⟩
  | _ => false

/-- `\d+\.\d{2}%?` as a full match. -/
def fullMoneyPct (s : String) : Bool :=
  match s.data.reverse with
  | '%' :: r => isMoney2 ⟨r.reverse⟩
  | _ => isMoney2 s

/-- The header-token set of `is_noise_line`. -/
def noiseSet : List String :=
  ["sr", "no", "hsn", "qty", "rate", "disc.", "taxable", "amt.", "cgst", "s/ut",
   "gst", "cess", "total", "sr no", "item & description", "product rate",
   "taxable amt.", "total amt."]

/-- `is_noise_line` (lines 461–477). -/
def is_noise_line (s : String) : Bool :=
  let s := pyStrip s
  if s = "" then true
  else if fullNumPct s then true
  else if fullSignedMoney s then true
  else if fullPlusMoney s then true
  else noiseSet.contains (toLowerS s)

/-- `looks_like_header_or_address` (lines 491–504). -/
def looks_like_header_or_address (s : String) : Bool :=
  let s := pyStrip s
  if s = "" then true
  else
    let low := toLowerS s
    if pyIn "bengaluru" low || pyIn "karnataka" low || pyIn "india" low then true
    else if ["bill to", "ship to", "invoice", "gstin", "fssai", "place of supply"].any
        (fun k => pyIn k low) then true
    else if ["sr item", "hsn", "taxable", "cgst", "s/ut", "cess", "total amt",
        "no description", "product rate"].any (fun k => pyIn k low) then true
    else if pyIn ":" s then true
    else false

/-- The address denylist of `alpha_line`. -/
def addrBad : List String :=
  ["layout", "road", "rd", "compound", "pura", "aecs", "munnekollal", "bengaluru",
   "karnataka", "india", "pin", "gstin", "fssai", "geddit", "convenience",
   "private limited", "vyom", "chopra"]

/-- `alpha_line` (lines 506–526): a likely product-name fragment. -/
def alpha_line (s : String) : Bool :=
  let s := pyStrip s
  if s = "" then false
  else if !s.data.any Char.isAlpha then false
  else if s.data.any Char.isDigit then false
  else if addrBad.any (fun w => pyIn w (toLowerS s)) then false
  else if 40 < s.data.length then false
  else true

/-- `packish_line` (lines 528–533): a likely pack-size fragment. -/
def packish_line (s : String) : Bool :=
  let s := toLowerS (pyStrip s)
  if s = "" then false
  else ["pack", "pcs", "pc", "kg", "g)", "ml", "l)", "(200", "(500", "("].any
    (fun k => pyIn k s)

/-- Lines 480–484: index of the first line that full-matches `SR`
(case-insensitively); `0` when absent. -/
def itemsSectionStart (lines : List String) : Nat :=
  match firstIdx (fun ln => toLowerS (pyStrip ln) = "sr") lines with
  | some i => i
  | none => 0

/-- The upward walk of the Context Stitcher (lines 551–564): `above` lists
the lines above the item line nearest-first, `acc` the fragments collected so
far (walk order).  A pack-size line stops the walk; header/address and noise
lines are skipped; at most 4 fragments are collected. -/
def collectPfx (above : List String) (acc : List String) : List String :=
  match above with
  | [] => acc
  | t :: rest =>
    if 4 ≤ acc.length then acc
    else
      let t := pyStrip t
      if t = "" then collectPfx rest acc
      else if packish_line t then acc
      else if looks_like_header_or_address t || is_noise_line t then collectPfx rest acc
      else if alpha_line t then collectPfx rest (acc ++ [t])
      else collectPfx rest acc

/-- The downward walk (lines 567–587): pack-size fragments are collected, a
further item line / totals marker / header line stops, standalone amounts are
skipped; at most 3 fragments. -/
def collectSfx (below : List String) (acc : List String) : List String :=
  match below with
  | [] => acc
  | t :: rest =>
    if 3 ≤ acc.length then acc
    else
      let t := pyStrip t
      if t = "" then collectSfx rest acc
      else if (itemReMatch t).isSome then acc
      else
        let low := toLowerS t
        if pyIn "item total" low || pyIn "invoice value" low || pyIn "handling fee" low then acc
        else if looks_like_header_or_address t then acc
        else if fullPlusMoney t || fullMoneyPct t then collectSfx rest acc
        else if packish_line t then collectSfx rest (acc ++ [t])
        else collectSfx rest acc

/-- The item built from a Mode 1 match at line `idx` (lines 547–607),
including the stitched display name. -/
def mkMode1Item (lines : List String) (start idx : Nat) (g : M1) : ZItem :=
  let base_name := stripDashSp (collapseWs g.name)
  let pfx := (collectPfx (((lines.take idx).drop start).reverse) []).reverse
  let sfx := collectSfx (lines.drop (idx + 1)) []
  let full_name := stripDashSp (collapseWs (joinSp (pfx ++ base_name :: sfx)))
  { sr := some (strToInt g.sr)
    name := full_name
    hsn := some g.hsn
    qty := some (strToInt g.qty)
    rate := fnum (some g.rate)
    discount_pct := fnum (some g.disc)
    taxable := fnum (some g.taxable)
    cgst_pct := fnum (some g.cgst_pct)
    sgst_pct := fnum (some g.sgst_pct)
    cgst_amt := fnum (some g.cgst_amt)
    sgst_amt := fnum (some g.sgst_amt)
    cess_pct := none
    cess_amt := fnum (some g.cess_amt)
    total := fnum (some g.total) }

/-- Mode 1 (lines 536–609): every line at or below the items-section start
that matches `item_re` and whose name group contains a letter yields an item. -/
def mode1Items (lines : List String) : List ZItem :=
  let start := itemsSectionStart lines
  (List.range lines.length).filterMap fun idx =>
    if idx < start then none
    else
      match itemReMatch (lines.getD idx "") with
      | none => none
      | some g =>
        if !g.name.data.any Char.isAlpha then none
        else some (mkMode1Item lines start idx g)

/-! ## Mode 2: the order-flexible fallback grammar (lines 611–665) -/

/-- Groups of a Mode 2 match. -/
structure M2G where
  name : String
  sr : String
  desc2 : String
  hsn : String
  qty : String
  taxable : String
  disc : String
  taxable2 : String
  cgst_pct : String
  sgst_pct : String
  cgst_amt : String
  sgst_amt : String
  cess_pct : String
  cess_amt : String
  total : String
deriving DecidableEq, Repr

/-- Try a Mode 2 match: name run of `n1` tokens from `s`, serial, second
description run of `n2` tokens, then the 12-token numeric tail. -/
def m2At (toks : List String) (s n1 n2 : Nat) : Option M2G :=
  let nameToks := (toks.drop s).take n1
  if nameToks.length ≠ n1 then none
  else
    let srT := toks.getD (s + n1) ""
    if !isDigitStr srT then none
    else
      let d2Toks := (toks.drop (s + n1 + 1)).take n2
      if d2Toks.length ≠ n2 then none
      else
        match toks.drop (s + n1 + 1 + n2) with
        | hsn :: qty :: txb :: disc :: txb2 :: cgp :: sgp :: cga :: sga :: csp :: csa :: tot :: _ =>
          if isHsnTok hsn && isDigitStr qty && isMoney2 txb && isPctOpt disc &&
              isMoney2 txb2 && isPctStrict cgp && isPctStrict sgp && isMoney2 cga &&
              isMoney2 sga && isPctOpt csp && isMoney2 csa && isMoney2 tot then
            some ⟨joinSp nameToks, srT, joinSp d2Toks, hsn, qty, txb, pctVal disc, txb2,
                  pctVal cgp, pctVal sgp, cga, sga, pctVal csp, csa, tot⟩
          else none
        | _ => none

/-- `re.search` for the Mode 2 pattern: leftmost start, then shortest first
free-text run, then shortest second run. -/
def mode2Match (cand : String) : Option M2G :=
  let toks := pyToks cand
  (List.range toks.length).findSome? fun s =>
    (List.range toks.length).findSome? fun n1 =>
      (List.range toks.length).findSome? fun n2 => m2At toks s (n1 + 1) (n2 + 1)

/-- The item built from a Mode 2 match (lines 647–662). -/
def mkMode2Item (g : M2G) : ZItem :=
  { sr := some (strToInt g.sr)
    name := collapseWs (pyStrip (g.name ++ " " ++ g.desc2))
    hsn := some g.hsn
    qty := some (strToInt g.qty)
    rate := none
    discount_pct := fnum (some g.disc)
    taxable := fnum (some g.taxable2)
    cgst_pct := fnum (some g.cgst_pct)
    sgst_pct := fnum (some g.sgst_pct)
    cgst_amt := fnum (some g.cgst_amt)
    sgst_amt := fnum (some g.sgst_amt)
    cess_pct := fnum (some g.cess_pct)
    cess_amt := fnum (some g.cess_amt)
    total := fnum (some g.total) }

/-- The Mode 2 scan (lines 615–665) over the lines from the items-section
start: stops at a totals marker; each line is tried alone and joined with
its successor; the first match is the only item (the source breaks out of
both loops as soon as `items` is nonempty). -/
def mode2Go (lines : List String) : List String → Nat → List ZItem
  | [], _ => []
  | ln :: rest, idx =>
    if pyIn "item total" (toLowerS ln) || pyIn "invoice value" (toLowerS ln) then []
    else
      let cands := ln :: (if idx + 1 < lines.length then
        [pyStrip (ln ++ " " ++ rest.headD "")] else [])
      match cands.findSome? mode2Match with
      | some g => [mkMode2Item g]
      | none => mode2Go lines rest (idx + 1)

/-- Mode 2 items of a document's lines. -/
def mode2Items (lines : List String) : List ZItem :=
  mode2Go lines (lines.drop (itemsSectionStart lines)) 0

/-! ## Candidate reconciliation (lines 428–440) and the item pipeline -/

/-- The dedup identity key (line 432–433):
`(str(hsn or ''), str(qty or ''), str(total or ''), name.lower())`.
Python's `x or ''` sends both `None` and falsy values (`0`, `0.0`, `''`) to
`''`; `str` is injective on the remaining values, so the `str` images are
modelled by the collapsed values themselves. -/
def key (it : ZItem) : String × Option Int × Option ℚ × String :=
  ((it.hsn.getD ""),
   (match it.qty with | some q => if q = 0 then none else some q | none => none),
   (match it.total with | some t => if t = 0 then none else some t | none => none),
   toLowerS it.name)

/-- The merge loop of lines 434–440: a candidate whose key was already seen
is dropped, otherwise appended and its key recorded. -/
def mergeExtraGo (acc : List ZItem) (seen : List (String × Option Int × Option ℚ × String)) :
    List ZItem → List ZItem
  | [] => acc
  | it :: rest =>
    if key it ∈ seen then mergeExtraGo acc seen rest
    else mergeExtraGo (acc ++ [it]) (key it :: seen) rest

/-- Lines 431–440: merge the text-strategy table items into the grid-path
items, seeding the seen-set with the keys of the existing items. -/
def mergeExtra (items extra : List ZItem) : List ZItem :=
  mergeExtraGo items (items.map key) extra

/-- Lines 224 and 428–440 for a single-page document: grid-path items from
the first grid table (`tbs[0]`), then the text-strategy items merged in
(the merge is skipped entirely when the text path found nothing). -/
def tableMerged (gridTbs textTbs : List RawTable) : List ZItem :=
  let items := match gridTbs with
    | [] => []
    | tb :: _ => gridTableItems tb
  let extra := match textTbs with
    | [] => []
    | tb :: _ => textTableItems tb
  if extra.isEmpty then items else mergeExtra items extra

/-- The whole item pipeline of `main` for a single-page document whose table
regions were located: table paths (grid then text-strategy, deduplicated),
then Mode 1 appends its matches, and Mode 2 runs only if the list is still
empty (line 612: `if not items:`). -/
def zeptoPipeline (gridTbs textTbs : List RawTable) (lines : List String) : List ZItem :=
  let items := tableMerged gridTbs textTbs ++ mode1Items lines
  if items.isEmpty then mode2Items lines else items

/-! ## Swiggy: `parse_swiggy_invoice.py`

The Shape A food-invoice pattern (line 117) is
`^\s*(\d+)\.\s+(.+?)\s+\w+\s+(\d+)\s+(m)\s+(m)\s+(m)\s+(m)\s*$` with
`m = [0-9][0-9,]*\.[0-9]{2,3}`.  It defines exactly seven capture groups —
the `\w+` unit token is *not* parenthesised — yet the loop body reads
`m.group(3)` as the unit, `int(m.group(4))` as the quantity and
`m.group(8)` as the net value.  Group 4 is therefore the first money column
(so `int()` raises `ValueError`) and group 8 does not exist at all. -/

/-- Groups of a Shape A match as the pattern actually numbers them:
`g1` serial, `g2` description, `g3` the captured `(\d+)` after the unit
token, `g4`–`g7` the four money columns.  The anchored pattern forces the
token split, so the match is unique when it exists. -/
structure SwA where
  g1 : String
  g2 : String
  g3 : String
  g4 : String
  g5 : String
  g6 : String
  g7 : String
deriving DecidableEq, Repr

/-- `re.match` of the Shape A pattern against the whitespace-normalised,
stripped line (line 116): token 0 is `digits.`, a nonempty description run,
then unit (`\w+`), count (`\d+`) and four money tokens ending the line. -/
def shapeAMatch (line : String) : Option SwA :=
  let toks := pyToks (pyStrip (collapseWs line))
  let L := toks.length
  if L < 8 then none
  else
    let srT := toks.getD 0 ""
    let srBody : List Char := srT.data.dropLast
    if !(srT.data.getLast? = some '.' && !srBody.isEmpty && srBody.all Char.isDigit) then none
    else
      let uom := toks.getD (L - 6) ""
      let cnt := toks.getD (L - 5) ""
      let m4 := toks.getD (L - 4) ""
      let m5 := toks.getD (L - 3) ""
      let m6 := toks.getD (L - 2) ""
      let m7 := toks.getD (L - 1) ""
      if !uom.data.isEmpty && uom.data.all isWordCh && isDigitStr cnt &&
          isMoney3 m4 && isMoney3 m5 && isMoney3 m6 && isMoney3 m7 then
        some ⟨⟨srBody⟩, joinSp ((toks.drop 1).take (L - 7)), cnt, m4, m5, m6, m7⟩
      else none

/-- A Swiggy output item (`{'name': ..., 'qty': ..., 'amount': ...}`). -/
structure SwItem where
  name : String
  qty : Option Int
  amount : Option ℚ
deriving DecidableEq, Repr

/-- The Shape A loop body (lines 115–132) for one line, with the raising
conversions explicit.  After a match the source computes
`desc = m.group(2).strip()`, `uom = m.group(3)`, then `qty = int(m.group(4))`
— but group 4 is the first money column, whose mandatory decimal point makes
`int()` raise `ValueError`; were that to succeed, `m.group(8)` would raise
for lack of an eighth group.  The quantity/handling-fee filters and the
append are never reached. -/
def parseShapeALine (line : String) : Except PyErr (Option SwItem) :=
  match shapeAMatch line with
  | none => .ok none
  | some m =>
    let _desc := pyStrip m.g2
    let _uom := m.g3
    match pyInt m.g4 with
    | none => .error .valueError
    | some _ =>
      let _unit_price := normMoney (some m.g5)
      .error .indexError

/-- Python `desc[:180]`. -/
def take180 (s : String) : String := ⟨s.data.take 180⟩

/-- The Shape A loop body as its group reads intend it (unit `\w+` captured,
so group 4 is the `(\d+)` count, group 8 the last money column — the reading
order the source's own variable names and `# Net Assessable Value` comment
document): parse all fields, then drop rows with quantity above 100 or a
description containing `handling fees`. -/
def shapeAIntendedLine (line : String) : Option SwItem :=
  match shapeAMatch line with
  | none => none
  | some m =>
    let desc := pyStrip m.g2
    let qty := strToInt m.g3
    match normMoney (some m.g7) with
    | none => none
    | some net =>
      if 100 < qty then none
      else if pyIn "handling fees" (toLowerS desc) then none
      else some { name := take180 desc, qty := some qty, amount := some net }

/-- Vendor-guard outcome of a parser's `main`: either the mismatch record
`{'ok': False, 'reason': ...}` (which carries no items), or extraction
proceeds on the text. -/
inductive GuardOut where
  | mismatch (reason : String)
  | proceed (text : String)
deriving DecidableEq, Repr

/-- Lines 86–89 of `parse_swiggy_invoice.py`: without a `swiggy` or
`bundl technologies` marker in the lower-cased text, the script prints
`{'ok': False, 'reason': 'not_swiggy'}` and returns. -/
def swiggyGuard (text : String) : GuardOut :=
  let low := toLowerS text
  if !pyIn "swiggy" low && !pyIn "bundl technologies" low then .mismatch "not_swiggy"
  else .proceed text

/-- Lines 57–60 of `parse_district_invoice.py`: the stripped text must
contain `ticketnew`, `orbgen` or `tax invoice` (lower-cased), else
`{'ok': False, 'reason': 'not_district'}`. -/
def districtGuard (text : String) : GuardOut :=
  let t := pyStrip text
  if !pyIn "ticketnew" (toLowerS t) && !pyIn "orbgen" (toLowerS t) &&
      !pyIn "tax invoice" (toLowerS t) then .mismatch "not_district"
  else .proceed t

/-! ## Blinkit total-column selection (`parse_blinkit_invoice.py`, lines 132–137) -/

/-- Blinkit header-cell normalisation: `str(c or '').strip().lower()`. -/
def blinkitHeaderCell (c : Option String) : String := toLowerS (pyStrip (c.getD ""))

/-- Blinkit's total-column predicate (line 135):
`c == 'total' or c.endswith('total')`. -/
def blinkitTotalCond (c : String) : Bool := c = "total" || endsWithS "total" c

/-- Line 135: `next((i for i, c in enumerate(header) if c == 'total' or
c.endswith('total')), None)` — the *first* matching column. -/
def blinkitIdxTotal (header : List String) : Option Nat :=
  firstIdx blinkitTotalCond header

/-! ## Concrete documents used by the claim theorems -/

/-- A one-row Zepto grid table (header + one item row). -/
def zC3Table : RawTable :=
  [[some "Sr", some "Item & Description", some "HSN", some "Qty", some "Total Amt."],
   [some "1", some "Lemon", some "7031010", some "2", some "21.00"]]

/-- Document lines whose Mode 1 item has the same identity key as the
`zC3Table` row (same HSN, quantity, total and lower-cased name). -/
def zC3Lines : List String :=
  ["SR", "1 Lemon 7031010 2 10.00 0.0% 20.00 2.5% 2.5% 0.50 0.50 0.00 21.00"]

/-- A grid table for the Mode 2 gating counterexample. -/
def zC5Table : RawTable :=
  [[some "Sr", some "Item & Description", some "HSN", some "Qty", some "Total Amt."],
   [some "1", some "Onion", some "7031020", some "1", some "15.00"]]

/-- Lines holding a membership-style row that only the order-flexible Mode 2
grammar matches (the strict `item_re` requires a decimal rate and a
decimal discount where this row has `99.00` followed by `0%`). -/
def zC5Lines : List String :=
  ["SR", "Zepto Pass 1 Pass 12345678 1 99.00 0% 99.00 0.0% 0.0% 0.00 0.00 0% 0.00 99.00"]

/-- Mode 1 line carrying the spec's total-confusion values
(taxable 50.00, both tax amounts 0.00, total 0.04). -/
def zC2Lines : List String :=
  ["SR", "1 Apple 7031010 1 50.00 0.0% 50.00 0.0% 0.0% 0.00 0.00 0.00 0.04"]

/-- The same values as a `row_pat` row (one extra cess-percent token, as
`row_pat` demands). -/
def zC2RowText : String :=
  "1 Apple 7031010 1 50.00 0.0% 50.00 0.0% 0.0% 0.00 0.00 0.0% 0.00 0.04"

/-- The spec's Context Stitcher scenario: an address line, a brand fragment,
the item line, a pack-size fragment. -/
def zC9Lines : List String :=
  ["Store Address Road", "Apple Kinnaur",
   "1 Lemon 7031010 2 10.00 0.0% 20.00 2.5% 2.5% 0.50 0.50 0.00 21.00", "(4 pcs)"]

/-- Lines where a name fragment (`Mango`) sits *above* a denylisted
header/address line (`Bill To: someone`). -/
def zC9bLines : List String :=
  ["SR", "Mango", "Bill To: someone",
   "1 Lemon 7031010 2 10.00 0.0% 20.00 2.5% 2.5% 0.50 0.50 0.00 21.00"]

/-- A grid-table row whose description cell holds two newline-joined
sub-values but whose total cell holds only one. -/
def zC8Table : RawTable :=
  [[some "Sr", some "Item & Description", some "HSN", some "Qty", some "Total"],
   [some "1\n2", some "A\nB", some "111111\n222222", some "1\n2", some "10.00"]]

/-- A Swiggy Shape A food-invoice line (serial, description, unit, count and
four money columns). -/
def swC1Line : String := "1. Rice NOS 2 40.00 40.00 0.00 40.00"

/-- A Shape A line whose intended quantity (200) exceeds the sanity bound. -/
def swC10Qty : String := "1. Chocolates BOX 200 500.00 0.00 500.00 500.00"

/-- A Shape A line whose description contains `handling fees`. -/
def swC10Fee : String := "1. Handling Fees for Order 123 BOX 1 10.00 0.00 10.00 10.00"

/-- A Shape A line that passes both filters under the intended grouping. -/
def swC10Ok : String := "1. Biscuits BOX 2 40.00 0.00 40.00 40.00"

/-- Items used by the reconciliation witness. -/
def wItemA : ZItem :=
  { sr := some 1, name := "Lime", hsn := some "7031030", qty := some 3
    rate := none, discount_pct := none, taxable := none
    cgst_pct := none, sgst_pct := none, cgst_amt := none, sgst_amt := none
    cess_pct := none, cess_amt := none, total := some (mkRat 30 1) }

/-- A text-path candidate sharing `wItemA`'s key (name case differs only). -/
def wItemA2 : ZItem :=
  { sr := some 1, name := "LIME", hsn := some "7031030", qty := some 3
    rate := some (mkRat 10 1), discount_pct := none, taxable := none
    cgst_pct := none, sgst_pct := none, cgst_amt := none, sgst_amt := none
    cess_pct := none, cess_amt := none, total := some (mkRat 30 1) }

/-- A text-path candidate with a fresh key. -/
def wItemB : ZItem :=
  { sr := some 2, name := "Basil", hsn := some "7031040", qty := some 1
    rate := none, discount_pct := none, taxable := none
    cgst_pct := none, sgst_pct := none, cgst_amt := none, sgst_amt := none
    cess_pct := none, cess_amt := none, total := some (mkRat 12 1) }

/-- Mode 1 line for the C5 witness document. -/
def w5Lines : List String :=
  ["1 Mint 7031050 1 10.00 0.0% 10.00 0.0% 0.0% 0.00 0.00 0.00 10.00"]

/-! ## Claim theorems -/

/-- **C1** — For every input document whose file exists and is readable, item
extraction was claimed to complete without raising, individual failing
numeric tokens degrading to `None` with siblings unaffected.  The Zepto side
does behave this way: `fnum` and the quantity conversion catch their
`float()` failures and return `None` (first two conjuncts).  But the Swiggy
Shape A loop (lines 115–132 of `parse_swiggy_invoice.py`) mis-numbers its
regex groups — the `\w+` unit token is not captured, so `int(m.group(4))`
runs on the first money column and raises an uncaught `ValueError` on every
line that matches the grammar (third conjunct): the exception escapes the
per-line loop and aborts extraction. -/
theorem C1_no_raise_fields_null :
    (∀ s : Option String, fnumE s = Except.ok (fnum s)) ∧
    (∀ q : String, qtyTryE q = Except.ok (qtyTry q)) ∧
    parseShapeALine swC1Line = Except.error PyErr.valueError := by
  refine ⟨?_, ?_, by decide⟩
  · intro s
    cases s with
    | none => rfl
    | some s =>
      simp only [fnumE, fnum, floatE]
      cases h : pyFloat (removeCommas (pyStrip s)) <;> simp [h]
  · intro q
    simp only [qtyTryE, qtyTry, floatE]
    cases h : pyFloat q <;> simp [h]

/-- **C2** — The total/taxable repair was claimed to apply to every emitted
item.  It is implemented only inside `parse_item_row_text`, which no
extraction path invokes (both table paths call `parse_item_row_text_all`,
which lacks the repair, and the Mode 1/Mode 2 line paths build their items
directly).  First conjunct: a Mode 1 item with taxable 50.00, zero tax
amounts and total 0.04 is emitted with total 0.04, not 50.00.  Second and
third conjuncts: the dead helper itself would have performed the repair. -/
theorem C2_total_repair_unreachable :
    (mode1Items zC2Lines).map (fun it => (it.taxable, it.total)) =
      [(some (mkRat 50 1), some (mkRat 4 100))] ∧
    (parse_item_row_text zC2RowText).map ZItem.total = some (some (mkRat 50 1)) ∧
    (parse_item_row_text zC2RowText).map ZItem.taxable = some (some (mkRat 50 1)) := by
  decide

/-- **C10** — The Shape A quantity/handling-fee filters (lines 127–131 of
`parse_swiggy_invoice.py`) were claimed to silently omit fully parsed rows.
Because of the group mis-numbering, every line matching the Shape A grammar
raises `ValueError` at `int(m.group(4))` before either filter runs.  The
conjuncts: both filter-triggering lines match the grammar, the actual code
raises on them, and under the intended grouping (the one the source's own
variable names and `group(8)` read document) the rows are indeed silently
omitted while an innocuous row passes. -/
theorem C10_shapeA_filters_unreachable :
    (shapeAMatch swC10Qty).isSome = true ∧
    parseShapeALine swC10Qty = Except.error PyErr.valueError ∧
    shapeAIntendedLine swC10Qty = none ∧
    (shapeAMatch swC10Fee).isSome = true ∧
    parseShapeALine swC10Fee = Except.error PyErr.valueError ∧
    shapeAIntendedLine swC10Fee = none ∧
    shapeAIntendedLine swC10Ok =
      some { name := "Biscuits", qty := some 2, amount := some (mkRat 40 1) } := by
  decide

/-- **C4** — A readable document whose extracted text contains none of the
vendor's identifying markers yields the structured mismatch result
`{ok: false, reason: "not_<vendor>"}` (which carries no items) instead of
attempting extraction, for both guard-carrying parsers (Swiggy and
District). -/
theorem C4_vendor_mismatch (text : String)
    (h1 : pyIn "swiggy" (toLowerS text) = false)
    (h2 : pyIn "bundl technologies" (toLowerS text) = false)
    (h3 : pyIn "ticketnew" (toLowerS (pyStrip text)) = false)
    (h4 : pyIn "orbgen" (toLowerS (pyStrip text)) = false)
    (h5 : pyIn "tax invoice" (toLowerS (pyStrip text)) = false) :
    swiggyGuard text = GuardOut.mismatch "not_swiggy" ∧
    districtGuard text = GuardOut.mismatch "not_district" := by
  constructor
  · simp [swiggyGuard, h1, h2]
  · simp [districtGuard, h3, h4, h5]

/-- Witness for C4 at a concrete marker-free text. -/
theorem C4_vendor_mismatch_witness :
    swiggyGuard "hello world" = GuardOut.mismatch "not_swiggy" ∧
    districtGuard "hello world" = GuardOut.mismatch "not_district" :=
  C4_vendor_mismatch "hello world" (by decide) (by decide) (by decide) (by decide) (by decide)

/-- **C5 (amended)** — The order-flexible Mode 2 grammar contributes nothing
whenever the strict Mode 1 grammar produced a candidate (first part: the
output is then exactly the merged table items followed by the Mode 1 items),
and it is attempted exactly when the item list after the table paths *and*
Mode 1 is empty (second part) — not, as claimed, whenever the strict grammar
alone yields zero candidates. -/
theorem C5_flexible_grammar_gate :
    (∀ g t lines, mode1Items lines ≠ [] →
      zeptoPipeline g t lines = tableMerged g t ++ mode1Items lines) ∧
    (∀ g t lines, tableMerged g t = [] → mode1Items lines = [] →
      zeptoPipeline g t lines = mode2Items lines) := by
  constructor
  · intro g t lines h
    simp only [zeptoPipeline]
    rw [if_neg]
    simp [List.isEmpty_iff, h]
  · intro g t lines h1 h2
    simp [zeptoPipeline, h1, h2]

/-- Witness for C5 at concrete inputs. -/
theorem C5_flexible_grammar_gate_witness :
    zeptoPipeline [] [] w5Lines = tableMerged [] [] ++ mode1Items w5Lines ∧
    zeptoPipeline [] [] ["x"] = mode2Items ["x"] :=
  ⟨C5_flexible_grammar_gate.1 [] [] w5Lines (by decide),
   C5_flexible_grammar_gate.2 [] [] ["x"] (by decide) (by decide)⟩

/-- **C5 counterexample** — A document where the strict grammar yields zero
candidates everywhere, a Mode 2 match exists, and yet the flexible grammar is
not attempted because the grid table path already produced an item: the
final list is just the table item. -/
theorem C5_counterexample :
    (zeptoPipeline [zC5Table] [] zC5Lines).map ZItem.name = ["Onion"] ∧
    mode1Items zC5Lines = [] ∧
    mode2Items zC5Lines ≠ [] := by
  decide

/-- If no cell of `l` contains `"total"`, the Zepto scan leaves the
accumulator unchanged. -/
theorem zeptoIdxTotalGo_of_no_match (l : List String) :
    ∀ i acc, (∀ j, j < l.length → pyIn "total" (l.getD j "") = false) →
      zeptoIdxTotalGo i acc l = acc := by
  induction l with
  | nil => intro i acc _; rfl
  | cons c rest ih =>
    intro i acc h
    have h0 : pyIn "total" c = false := by
      have := h 0 (by simp)
      simpa using this
    simp only [zeptoIdxTotalGo, h0]
    exact ih _ _ (fun j hj => by
      have := h (j + 1) (by simp [List.length_cons]; omega)
      simpa using this)

/-- The Zepto scan returns the last matching index (relative characterisation
over the running offset `i0`). -/
theorem zeptoIdxTotalGo_last (l : List String) :
    ∀ i0 acc i, i < l.length → pyIn "total" (l.getD i "") = true →
      (∀ j, i < j → j < l.length → pyIn "total" (l.getD j "") = false) →
      zeptoIdxTotalGo i0 acc l = some (i0 + i) := by
  induction l with
  | nil => intro i0 acc i hi _ _; exact absurd hi (Nat.not_lt_zero i)
  | cons c rest ih =>
    intro i0 acc i hi hmatch hlast
    cases i with
    | zero =>
      simp only [List.getD_cons_zero] at hmatch
      simp only [zeptoIdxTotalGo, hmatch, if_true]
      rw [zeptoIdxTotalGo_of_no_match rest _ _ (fun j hj => by
        have := hlast (j + 1) (Nat.succ_pos j) (by simp [List.length_cons]; omega)
        simpa using this)]
      simp
    | succ i' =>
      have hi' : i' < rest.length := by
        simp only [List.length_cons] at hi
        omega
      simp only [List.getD_cons_succ] at hmatch
      simp only [zeptoIdxTotalGo]
      rw [ih (i0 + 1) _ i' hi' hmatch (fun j hj hj2 => by
        have := hlast (j + 1) (Nat.succ_lt_succ hj) (by simp [List.length_cons]; omega)
        simpa using this)]
      congr 1
      omega

/-- The generic first-index scan returns the first matching index. -/
theorem firstIdxGo_first (p : String → Bool) (l : List String) :
    ∀ i0 i, i < l.length → p (l.getD i "") = true →
      (∀ j, j < i → p (l.getD j "") = false) →
      firstIdxGo p l i0 = some (i0 + i) := by
  induction l with
  | nil => intro i0 i hi _ _; exact absurd hi (Nat.not_lt_zero i)
  | cons c rest ih =>
    intro i0 i hi hmatch hfirst
    cases i with
    | zero =>
      simp only [List.getD_cons_zero] at hmatch
      simp [firstIdxGo, hmatch]
    | succ i' =>
      have hi' : i' < rest.length :=
        Nat.lt_of_succ_lt_succ (by simpa [List.length_cons] using hi)
      have hc : p c = false := by
        have := hfirst 0 (Nat.succ_pos i')
        simpa using this
      simp only [List.getD_cons_succ] at hmatch
      simp only [firstIdxGo, hc]
      rw [ih (i0 + 1) i' hi' hmatch (fun j hj => by
        have := hfirst (j + 1) (Nat.succ_lt_succ hj)
        simpa using this)]
      have harith : i0 + 1 + i' = i0 + (i' + 1) := by omega
      rw [harith]
      simp

/-- **C6 (amended)** — The two table readers cited by the claim select the
total column differently.  Zepto (`table_extract_items`, lines 122–125) uses
the *last* header cell containing `"total"` (first part); Blinkit
(`parse_blinkit_invoice.py`, line 135) uses the *first* header cell that is
equal to or ends with `"total"` (second part) — not the last containing
column, as the claim asserts for both. -/
theorem C6_total_column_selection :
    (∀ header i, i < header.length → pyIn "total" (header.getD i "") = true →
      (∀ j, i < j → j < header.length → pyIn "total" (header.getD j "") = false) →
      zeptoIdxTotal header = some i) ∧
    (∀ header i, i < header.length → blinkitTotalCond (header.getD i "") = true →
      (∀ j, j < i → blinkitTotalCond (header.getD j "") = false) →
      blinkitIdxTotal header = some i) := by
  constructor
  · intro header i hi hm hl
    have := zeptoIdxTotalGo_last header 0 none i hi hm hl
    simpa [zeptoIdxTotal] using this
  · intro header i hi hm hf
    have := firstIdxGo_first blinkitTotalCond header 0 i hi hm hf
    simpa [blinkitIdxTotal, firstIdx] using this

/-- Witness for C6 at concrete headers. -/
theorem C6_total_column_selection_witness :
    zeptoIdxTotal ["total amt.", "qty", "total"] = some 2 ∧
    blinkitIdxTotal ["total amt", "grand total", "total"] = some 1 :=
  ⟨C6_total_column_selection.1 ["total amt.", "qty", "total"] 2 (by decide) (by decide)
      (fun j h1 h2 => by simp at h2; omega),
   C6_total_column_selection.2 ["total amt", "grand total", "total"] 1 (by decide) (by decide)
      (fun j h1 => by
        have : j = 0 := by omega
        subst this
        decide)⟩

/-- **C6 counterexample** — A Blinkit header whose two columns both contain
`"total"`: the reader picks column 0, not the last matching column 1. -/
theorem C6_counterexample :
    pyIn "total" (blinkitHeaderCell (some "Grand Total")) = true ∧
    pyIn "total" (blinkitHeaderCell (some "Total")) = true ∧
    blinkitIdxTotal
      [blinkitHeaderCell (some "Grand Total"), blinkitHeaderCell (some "Total")] = some 0 := by
  decide

/-- The upward walk never looks past a pack-size line: the lines beyond it
contribute nothing, whatever they are. -/
theorem collectPfx_stops_at_packish (p : String) (vs : List String)
    (hp : packish_line (pyStrip p) = true) (hne : pyStrip p ≠ "") :
    ∀ (us : List String) (acc : List String),
      collectPfx (us ++ p :: vs) acc = collectPfx us acc := by
  intro us
  induction us with
  | nil =>
    intro acc
    simp only [List.nil_append, collectPfx]
    by_cases h4 : 4 ≤ acc.length
    · simp [h4]
    · simp [h4, hne, hp]
  | cons u us' ih =>
    intro acc
    simp only [List.cons_append, collectPfx]
    by_cases h4 : 4 ≤ acc.length
    · simp [h4]
    · by_cases hemp : pyStrip u = ""
      · simp [h4, hemp, ih]
      · by_cases hpack : packish_line (pyStrip u) = true
        · simp [h4, hemp, hpack]
        · by_cases hhn : (looks_like_header_or_address (pyStrip u) || is_noise_line (pyStrip u)) = true
          · simp [h4, hemp, hpack, hhn, ih]
          · by_cases halpha : alpha_line (pyStrip u) = true
            · simp [h4, hemp, hpack, hhn, halpha, ih]
            · simp [h4, hemp, hpack, hhn, halpha, ih]

/-- **C9 (amended)** — The upward walk of the Context Stitcher stops only at
the first pack-size line (first part: everything above such a line is
ignored); denylisted and noise lines are *skipped*, not stopped at, so the
claimed stop rule holds only for pack-size lines.  The spec's scenario does
hold: for `["Store Address Road", "Apple Kinnaur", <item line>, "(4 pcs)"]`
the assembled name is exactly `"Apple Kinnaur Lemon (4 pcs)"` and never
contains the address line (second and third parts; the address line is
rejected by the `alpha_line` denylist during the walk, not by a stop). -/
theorem C9_context_stitcher :
    (∀ (p : String) (vs : List String), packish_line (pyStrip p) = true → pyStrip p ≠ "" →
      ∀ (us acc : List String), collectPfx (us ++ p :: vs) acc = collectPfx us acc) ∧
    (mode1Items zC9Lines).map ZItem.name = ["Apple Kinnaur Lemon (4 pcs)"] ∧
    pyIn "Store Address Road" "Apple Kinnaur Lemon (4 pcs)" = false := by
  refine ⟨?_, by decide, by decide⟩
  intro p vs hp hne us acc
  exact collectPfx_stops_at_packish p vs hp hne us acc

/-- Witness for C9's pack-size stop at a concrete walk. -/
theorem C9_context_stitcher_witness :
    collectPfx (["Apple Kinnaur"] ++ "(4 pcs)" :: ["Store Address Road"]) [] =
      collectPfx ["Apple Kinnaur"] [] :=
  C9_context_stitcher.1 "(4 pcs)" ["Store Address Road"] (by decide) (by decide)
    ["Apple Kinnaur"] []

/-- **C9 counterexample** — The walk does *not* stop at a denylisted line:
`"Bill To: someone"` is header/address-denylisted, yet the fragment
`"Mango"` sitting above it is still collected into the assembled name. -/
theorem C9_counterexample :
    looks_like_header_or_address "Bill To: someone" = true ∧
    alpha_line "Mango" = true ∧
    (mode1Items zC9bLines).map ZItem.name = ["Mango Lemon"] := by
  decide

/-- One unfolding step of the repair on a two-cell window, phrased with the
repair entry point itself on both sides. -/
theorem digitRepair_step (a b : String) (rest : List String) :
    digitRepair (a :: b :: rest) =
      if digitPairGuard a b then
        if repairSnd a b = "" then digitRepair (repairFst a b :: rest)
        else repairFst a b :: digitRepair (repairSnd a b :: rest)
      else a :: digitRepair (b :: rest) := rfl

/-- An 8-digit (or any not-6-to-7-character) first cell is passed over
unchanged. -/
theorem digitRepair_cons_eight (code : String) (h : code.data.length = 8)
    (l : List String) : digitRepair (code :: l) = code :: digitRepair l := by
  cases l with
  | nil => rfl
  | cons r rs =>
    rw [digitRepair_step]
    have hg : digitPairGuard code r = false := by
      simp [digitPairGuard, h]
    rw [hg]
    simp

/-- **C7 (amended)** — The digit-split repair, on an adjacent pair of purely
numeric cells whose first member has 6 or 7 digits.  First part: when the
pair arose by splitting an 8-digit code after position `pp` (the second cell
carrying the remainder of the code plus possibly unrelated following digits,
within the 1–3 length bound), the repaired first cell is exactly the
original code and the second keeps exactly the unrelated digits, being
dropped only when empty.  Second part: a 6-digit cell followed by a 1-digit
cell is left unchanged — the two digits needed cannot be taken from a
single-digit cell (the code's `need <= len(b)` guard), contrary to the
claim's unconditional phrasing. -/
theorem C7_digit_repair :
    (∀ (code extra : String) (rest : List String) (pp : Nat),
      code.data.all Char.isDigit = true → code.data.length = 8 → pp = 6 ∨ pp = 7 →
      extra.data.all Char.isDigit = true → 8 - pp + extra.data.length ≤ 3 →
      digitRepair (⟨code.data.take pp⟩ :: ⟨code.data.drop pp ++ extra.data⟩ :: rest) =
        code :: digitRepair (if extra = "" then rest else extra :: rest)) ∧
    (∀ (a b : String) (rest : List String),
      isDigitStr a = true → a.data.length = 6 → isDigitStr b = true → b.data.length = 1 →
      digitRepair (a :: b :: rest) = a :: digitRepair (b :: rest)) := by
  constructor
  · intro code extra rest pp hcd hc8 hpp hed hlen
    have hple : pp ≤ 8 := by rcases hpp with h | h <;> omega
    have htakeLen : (code.data.take pp).length = pp := by
      rw [List.length_take, hc8]
      omega
    have hdropLen : (code.data.drop pp).length = 8 - pp := by
      rw [List.length_drop, hc8]
    have hguard : digitPairGuard ⟨code.data.take pp⟩ ⟨code.data.drop pp ++ extra.data⟩ = true := by
      simp only [digitPairGuard, Bool.and_eq_true, decide_eq_true_eq]
      refine ⟨⟨⟨⟨⟨⟨?_, ?_⟩, ?_⟩, ?_⟩, ?_⟩, ?_⟩, ?_⟩
      · simp only [isDigitStr, Bool.and_eq_true]
        constructor
        · simp only [Bool.not_eq_true']
          rw [List.isEmpty_eq_false_iff_exists_mem]
          have : 0 < (code.data.take pp).length := by omega
          exact ⟨_, List.getElem_mem this⟩
        · exact List.all_eq_true.2 fun x hx => List.all_eq_true.1 hcd x (List.take_subset _ _ hx)
      · show 6 ≤ (code.data.take pp).length
        omega
      · show (code.data.take pp).length < 8
        omega
      · simp only [isDigitStr, Bool.and_eq_true]
        constructor
        · simp only [Bool.not_eq_true']
          rw [List.isEmpty_eq_false_iff_exists_mem]
          have hpos : 0 < (code.data.drop pp ++ extra.data).length := by
            rw [List.length_append, hdropLen]
            omega
          exact ⟨_, List.getElem_mem hpos⟩
        · refine List.all_eq_true.2 fun x hx => ?_
          rcases List.mem_append.1 hx with h | h
          · exact List.all_eq_true.1 hcd x (List.drop_subset _ _ h)
          · exact List.all_eq_true.1 hed x h
      · show 1 ≤ (code.data.drop pp ++ extra.data).length
        rw [List.length_append, hdropLen]
        omega
      · show (code.data.drop pp ++ extra.data).length ≤ 3
        rw [List.length_append, hdropLen]
        omega
      · show 8 - (code.data.take pp).length ≤ (code.data.drop pp ++ extra.data).length
        rw [htakeLen, List.length_append, hdropLen]
        omega
    have hfst : repairFst ⟨code.data.take pp⟩ ⟨code.data.drop pp ++ extra.data⟩ = code := by
      simp only [repairFst, htakeLen]
      rw [show (8 - pp) = (code.data.drop pp).length from hdropLen.symm, List.take_left,
        List.take_append_drop]
    have hsnd : repairSnd ⟨code.data.take pp⟩ ⟨code.data.drop pp ++ extra.data⟩ = extra := by
      simp only [repairSnd, htakeLen]
      rw [show (8 - pp) = (code.data.drop pp).length from hdropLen.symm, List.drop_left]
    rw [digitRepair_step, hguard]
    simp only [if_true]
    rw [hfst, hsnd]
    by_cases hext : extra = ""
    · subst hext
      simp only [if_pos rfl]
      exact digitRepair_cons_eight code hc8 rest
    · rw [if_neg hext, if_neg hext]
  · intro a b rest ha h6 hb h1len
    rw [digitRepair_step]
    have hg : digitPairGuard a b = false := by
      simp [digitPairGuard, h6, h1len]
    rw [hg]
    simp

/-- Witness for C7 at a concrete split code and a concrete too-short pair. -/
theorem C7_digit_repair_witness :
    digitRepair ["200112", "34", "55.00"] = ["20011234", "55.00"] ∧
    digitRepair ["654321", "9"] = ["654321", "9"] := by
  constructor
  · have h := C7_digit_repair.1 "20011234" "" ["55.00"] 6 (by decide) (by decide)
      (Or.inl rfl) (by decide) (by decide)
    simpa using h
  · have h := C7_digit_repair.2 "654321" "9" [] (by decide) (by decide) (by decide) (by decide)
    simpa using h

/-- **C7 counterexample** — An adjacent purely numeric (6-digit, 1-digit)
pair, squarely inside the claim's premise, on which the repair moves
nothing: the first cell stays 6 digits long and the second is neither
shortened nor dropped. -/
theorem C7_counterexample :
    isDigitStr "123456" = true ∧ ("123456" : String).data.length = 6 ∧
    isDigitStr "7" = true ∧ ("7" : String).data.length = 1 ∧
    digitRepair ["123456", "7"] = ["123456", "7"] := by
  decide

/-- A `filterMap` whose function succeeds everywhere is a `map`. -/
theorem filterMap_eq_map_of_some {α β : Type} (f : α → Option β) (g : α → β) :
    ∀ l : List α, (∀ a ∈ l, f a = some (g a)) → l.filterMap f = l.map g := by
  intro l h
  induction l with
  | nil => rfl
  | cons x xs ih =>
    rw [List.filterMap_cons, h x (List.mem_cons_self x xs), List.map_cons,
      ih (fun a ha => h a (List.mem_cons_of_mem x ha))]

/-- **C8 (amended)** — The merged-multi-row normalisation.  When all five
multi-valued columns carry exactly `k` sub-values, every description
sub-value is nonempty and every total sub-value parses, the row yields
exactly `k` candidates, the `i`-th taking the `i`-th sub-value of each of
the serial, description, HSN, quantity and total columns.  (Without these
side conditions the count can fall short of `k`: a candidate whose total
sub-value is missing or unparseable, or whose description sub-value is
missing, is skipped — see the counterexample.) -/
theorem C8_multirow_normalisation (srs descs hsns qtys totals : List String) (k : Nat)
    (h1 : srs.length = k) (h2 : descs.length = k) (h3 : hsns.length = k)
    (h4 : qtys.length = k) (h5 : totals.length = k)
    (hd : ∀ i, i < k → descs.getD i "" ≠ "")
    (ht : ∀ i, i < k → fnum (some (totals.getD i "")) ≠ none) :
    multiSub srs descs hsns qtys totals = (List.range k).map (fun i =>
      { sr := if isDigitStr (srs.getD i "") then some (strToInt (srs.getD i "")) else none
        name := descs.getD i ""
        hsn := some (hsns.getD i "")
        qty := qtyTry (qtys.getD i "")
        rate := none, discount_pct := none, taxable := none
        cgst_pct := none, sgst_pct := none, cgst_amt := none, sgst_amt := none
        cess_pct := none, cess_amt := none
        total := fnum (some (totals.getD i "")) }) := by
  have hmax : max (max (max (max descs.length totals.length) srs.length) hsns.length)
      qtys.length = k := by
    rw [h1, h2, h3, h4, h5]
    simp
  simp only [multiSub, hmax]
  apply filterMap_eq_map_of_some
  intro i hi
  have hik : i < k := List.mem_range.1 hi
  have hdlen : i < descs.length := by omega
  have htlen : i < totals.length := by omega
  have hslen : i < srs.length := by omega
  have hhlen : i < hsns.length := by omega
  have hqlen : i < qtys.length := by omega
  obtain ⟨v, hv⟩ := Option.ne_none_iff_exists'.1 (ht i hik)
  simp only [buildSub]
  rw [if_pos hdlen, if_neg (hd i hik), if_pos htlen, hv]
  simp [hslen, hhlen, hqlen, hv]

/-- Witness for C8: a two-sub-value row where every column carries both
values and both totals parse. -/
theorem C8_multirow_normalisation_witness :
    multiSub ["1", "2"] ["A", "B"] ["111111", "222222"] ["1", "2"] ["10.00", "20.00"] =
      (List.range 2).map (fun i =>
        { sr := if isDigitStr (["1", "2"].getD i "") then
                  some (strToInt (["1", "2"].getD i "")) else none
          name := ["A", "B"].getD i ""
          hsn := some (["111111", "222222"].getD i "")
          qty := qtyTry (["1", "2"].getD i "")
          rate := none, discount_pct := none, taxable := none
          cgst_pct := none, sgst_pct := none, cgst_amt := none, sgst_amt := none
          cess_pct := none, cess_amt := none
          total := fnum (some (["10.00", "20.00"].getD i "")) }) :=
  C8_multirow_normalisation ["1", "2"] ["A", "B"] ["111111", "222222"] ["1", "2"]
    ["10.00", "20.00"] 2 (by decide) (by decide) (by decide) (by decide) (by decide)
    (fun i hik => by interval_cases i <;> decide)
    (fun i hik => by interval_cases i <;> decide)

/-- **C8 counterexample** — A row whose description cell holds two
newline-joined sub-values (`k = 2`) but whose total cell holds one: exactly
one candidate is produced, not two. -/
theorem C8_counterexample :
    (splitcellS "A\nB").length = 2 ∧ (gridTableItems zC8Table).length = 1 := by
  decide

/-- Invariant proof for the merge loop: if the seen-set holds exactly the
keys of the accumulated list and those keys are distinct, the loop output
has distinct keys, extends the accumulator in place, and every element
either was already accumulated or is a new-key element of the input. -/
theorem mergeExtraGo_spec (rest : List ZItem) :
    ∀ (acc : List ZItem) (seen : List (String × Option Int × Option ℚ × String)),
      (∀ kk, kk ∈ seen ↔ kk ∈ acc.map key) → (acc.map key).Nodup →
      ((mergeExtraGo acc seen rest).map key).Nodup ∧
      acc <+: mergeExtraGo acc seen rest ∧
      (∀ it ∈ mergeExtraGo acc seen rest, it ∈ acc ∨ (it ∈ rest ∧ key it ∉ acc.map key)) := by
  induction rest with
  | nil =>
    intro acc seen _ hnd
    exact ⟨hnd, List.prefix_refl _, fun it hit => Or.inl hit⟩
  | cons it rest ih =>
    intro acc seen hinv hnd
    by_cases hmem : key it ∈ seen
    · simp only [mergeExtraGo, if_pos hmem]
      obtain ⟨hnd2, hpre, hprov⟩ := ih acc seen hinv hnd
      refine ⟨hnd2, hpre, fun x hx => ?_⟩
      rcases hprov x hx with h | ⟨hr, hk⟩
      · exact Or.inl h
      · exact Or.inr ⟨List.mem_cons_of_mem _ hr, hk⟩
    · simp only [mergeExtraGo, if_neg hmem]
      have hknotin : key it ∉ acc.map key := fun hc => hmem ((hinv (key it)).2 hc)
      have hinv2 : ∀ kk, kk ∈ (key it :: seen) ↔ kk ∈ (acc ++ [it]).map key := by
        intro kk
        rw [List.map_append]
        simp only [List.mem_cons, List.mem_append, hinv kk, List.map_cons, List.map_nil,
          List.mem_singleton]
        tauto
      have hnd2 : ((acc ++ [it]).map key).Nodup := by
        rw [List.map_append]
        rw [List.nodup_append]
        exact ⟨hnd, List.nodup_singleton _, by simpa using hknotin⟩
      obtain ⟨hnd3, hpre, hprov⟩ := ih (acc ++ [it]) (key it :: seen) hinv2 hnd2
      refine ⟨hnd3, (List.prefix_append acc [it]).trans hpre, fun x hx => ?_⟩
      rcases hprov x hx with hacc | ⟨hr, hk⟩
      · rcases List.mem_append.1 hacc with h | h
        · exact Or.inl h
        · have hxit : x = it := by simpa using h
          subst hxit
          exact Or.inr ⟨List.mem_cons_self _ _, hknotin⟩
      · refine Or.inr ⟨List.mem_cons_of_mem _ hr, fun hc => hk ?_⟩
        rw [List.map_append]
        exact List.mem_append_left _ hc

/-- **C3 (amended)** — The key-based dedup holds for the table-path merge
(lines 428–440): merging the text-strategy candidates into a grid-path list
with distinct keys yields a list with distinct keys, keeps the grid-path
records in place (so a grid candidate wins over a text candidate with the
same key), and admits a text candidate only when its key is new.  It does
*not* hold of the final document list, because Mode 1 line-pattern items are
appended afterwards with no key check (see the counterexample). -/
theorem C3_reconciler_dedup (items extra : List ZItem)
    (h : (items.map key).Nodup) :
    ((mergeExtra items extra).map key).Nodup ∧
    items <+: mergeExtra items extra ∧
    (∀ it ∈ mergeExtra items extra, it ∈ items ∨ (it ∈ extra ∧ key it ∉ items.map key)) :=
  mergeExtraGo_spec extra items (items.map key) (fun _ => Iff.rfl) h

/-- Witness for C3: a text-path list containing one key-duplicate and one
fresh candidate merged into a one-item grid list. -/
theorem C3_reconciler_dedup_witness :
    ((mergeExtra [wItemA] [wItemA2, wItemB]).map key).Nodup ∧
    [wItemA] <+: mergeExtra [wItemA] [wItemA2, wItemB] :=
  ⟨(C3_reconciler_dedup [wItemA] [wItemA2, wItemB] (by decide)).1,
   (C3_reconciler_dedup [wItemA] [wItemA2, wItemB] (by decide)).2.1⟩

/-- **C3 counterexample** — A document whose grid table and Mode 1 line
describe the same physical item (same HSN, quantity, total, lower-cased
name): the final pipeline list holds both, with equal identity keys — the
Mode 1 append performs no dedup. -/
theorem C3_counterexample :
    (zeptoPipeline [zC3Table] [] zC3Lines).length = 2 ∧
    ¬ ((zeptoPipeline [zC3Table] [] zC3Lines).map key).Nodup := by
  decide
